import Mathlib

/-!
# Verification of the momo-sms-analyzer ETL pipeline

A shallow embedding of the core ETL stages of the `momo-sms-analyzer`
repository (`etl/parse_xml.py`, `etl/clean_normalize.py`, `etl/categorize.py`,
`etl/load_db.py`, `etl/config.py`) together with theorems settling the
specification claims about them.

Conventions of the embedding:
* Python strings are Lean `String`; all character-level work happens on
  `String.data` (`List Char`) so that every definition evaluates by `decide`.
* A Python value that may be `None` is an `Option`; a dictionary key that may
  be missing is an additional outer `Option` where the distinction matters.
* Python numbers (`int`/`float`) are modelled as `ℚ`.  The pipeline only
  compares and copies them, so exact rationals are a faithful model of the
  IEEE doubles the code manipulates at the values the claims touch.
* Code that can raise returns `Except String _` (the message is the model of
  the exception); code whose `try` swallows every exception returns `Option`.
-/

namespace MomoEtl

/-! ## Python string primitives -/

/-- Python's `\s` class (`str.strip`, `re` whitespace): space, tab, LF, CR,
vertical tab, form feed. -/
def pyIsSpace (c : Char) : Bool :=
  c = ' ' ∨ c = '\t' ∨ c = '\n' ∨ c = '\r' ∨ c = '\x0b' ∨ c = '\x0c'

/-- `str.strip()` on a character list. -/
def pyStrip (cs : List Char) : List Char :=
  ((cs.dropWhile pyIsSpace).reverse.dropWhile pyIsSpace).reverse

/-- Decimal digits to a number; `none` when empty or a non-digit appears.
`int(s)` also allows `_` separators between digits, which the model omits
(no claim exercises them). -/
def digitsToNat (cs : List Char) : Option Nat :=
  if cs ≠ [] ∧ cs.all Char.isDigit then
    some (cs.foldl (fun a c => a * 10 + (c.toNat - 48)) 0)
  else none

/-- Python `int(s)` on a string: optional surrounding whitespace, optional
sign, decimal digits; `none` models the `ValueError` on anything else. -/
def pyInt (s : String) : Option Int :=
  match pyStrip s.data with
  | '-' :: rest => (digitsToNat rest).map (fun n => -(n : Int))
  | '+' :: rest => (digitsToNat rest).map (fun n => (n : Int))
  | rest => (digitsToNat rest).map (fun n => (n : Int))

/-- Python substring test `needle in hay` on character lists. -/
def charsContains (needle : List Char) : List Char → Bool
  | [] => needle.isEmpty
  | c :: t => needle.isPrefixOf (c :: t) || charsContains needle t

/-- Python `needle in hay` on strings. -/
def strContains (hay needle : String) : Bool :=
  charsContains needle.data hay.data

/-- ASCII lowercase of one character (`str.lower()`; the Unicode cases are
not exercised by the rule tables, which are ASCII). -/
def pyCharLower (c : Char) : Char :=
  if 'A' ≤ c ∧ c ≤ 'Z' then Char.ofNat (c.toNat + 32) else c

/-- `s.lower()`. -/
def pyLower (s : String) : String :=
  String.mk (s.data.map pyCharLower)

instance {α β : Type} [DecidableEq α] [DecidableEq β] : DecidableEq (Except α β) :=
  fun a b =>
    match a, b with
    | .ok x, .ok y =>
        if h : x = y then .isTrue (by rw [h]) else .isFalse (by simp [h])
    | .error x, .error y =>
        if h : x = y then .isTrue (by rw [h]) else .isFalse (by simp [h])
    | .ok _, .error _ => .isFalse (by simp)
    | .error _, .ok _ => .isFalse (by simp)

/-! ## `etl/parse_xml.py` — the Record Extractor -/

/-- An `<sms .../>` element: the three attributes the extractor reads via
`sms_element.get(attr, '')`.  `none` models an absent attribute. -/
structure SmsElement where
  address : Option String
  date : Option String
  body : Option String
deriving Repr, DecidableEq

/-- A `datetime` value as the extractor produces it: either
`datetime.fromtimestamp(int(ts) / 1000)` for an epoch-millisecond input, or
`datetime.now()`.  The model tracks provenance; no claim inspects the
calendar fields. -/
inductive PyDateTime where
  | epochMs (ms : Int)
  | current
deriving Repr, DecidableEq

/-- `datetime.fromtimestamp` raises (`ValueError`/`OverflowError`/`OSError`)
outside the representable datetime range (year 1 … 9999); the guard models
that range in epoch milliseconds. -/
def fromtimestampOk (ms : Int) : Bool :=
  -62135596800000 ≤ ms ∧ ms ≤ 253402300799999

/-- The dictionary built by `XMLParser._extract_transaction_data`. -/
structure RawRecord where
  raw_sender : String
  transaction_date : PyDateTime
  raw_body : String
  parsed_at : PyDateTime
deriving Repr, DecidableEq

/-- `XMLParser._extract_transaction_data` (parse_xml.py lines 65-101).
The whole body sits in a `try` whose `except Exception` returns `None`, so
the function never lets an exception escape: an unparsable (or out-of-range)
`date` attribute makes `int(timestamp)` / `fromtimestamp` raise, the handler
logs and returns `None`, and the entry is lost.  An absent/empty `date`
takes the `else` branch and defaults to `datetime.now()`. -/
def extract_transaction_data (e : SmsElement) : Option RawRecord :=
  let sender := e.address.getD ""
  let timestamp := e.date.getD ""
  let body := e.body.getD ""
  let dateVal : Option PyDateTime :=
    if timestamp ≠ "" then
      match pyInt timestamp with
      | some n => if fromtimestampOk n then some (.epochMs n) else none
      | none => none
    else some .current
  match dateVal with
  | some d =>
      some { raw_sender := sender, transaction_date := d, raw_body := body,
             parsed_at := .current }
  | none => none

/-- A record written by `XMLParser._save_to_dead_letter`: the failed element
tagged with the error message and a timestamp. -/
structure DeadLetterRecord where
  element : SmsElement
  error : String
  timestamp : PyDateTime
deriving Repr, DecidableEq

/-- One iteration of the loop in `XMLParser.parse_xml_file` (lines 46-53):
`transaction = self._extract_transaction_data(sms_element)`, append when
truthy; the surrounding `except` would dead-letter an exception raised by
the extraction, but `_extract_transaction_data` catches every exception
internally and returns `None`, so that branch is unreachable and no
dead-letter record is ever produced by the loop. -/
def parse_step (acc : List RawRecord × List DeadLetterRecord) (e : SmsElement) :
    List RawRecord × List DeadLetterRecord :=
  match extract_transaction_data e with
  | some t => (acc.1 ++ [t], acc.2)
  | none => acc

/-- `XMLParser.parse_xml_file` restricted to its per-element loop: the list
of extracted transactions and the dead-letter records written while
processing. -/
def parse_xml_file (elems : List SmsElement) :
    List RawRecord × List DeadLetterRecord :=
  elems.foldl parse_step ([], [])

/-! ## `etl/config.py` — static rule tables -/

/-- `TRANSACTION_CATEGORIES` (config.py lines 29-37), in dictionary order
(Python dictionaries preserve insertion order). -/
def TRANSACTION_CATEGORIES : List (String × List String) :=
  [("TRANSFER", ["transfer", "send", "sent"]),
   ("DEPOSIT", ["deposit", "receive", "received", "top up", "topup"]),
   ("WITHDRAWAL", ["withdraw", "withdrawal", "cash out", "cashout"]),
   ("PAYMENT", ["payment", "pay", "purchase", "buy"]),
   ("AIRTIME", ["airtime", "credit", "recharge"]),
   ("BILL", ["bill", "utility", "electricity", "water"]),
   ("OTHER", [])]

/-- `AMOUNT_THRESHOLDS['SMALL']` (config.py line 41). -/
def THRESHOLD_SMALL : ℚ := 1000

/-- `AMOUNT_THRESHOLDS['MEDIUM']` (config.py line 42). -/
def THRESHOLD_MEDIUM : ℚ := 50000

/-- `AMOUNT_THRESHOLDS['LARGE']` (config.py line 43). -/
def THRESHOLD_LARGE : ℚ := 500000

/-! ## `etl/categorize.py` — the Categorizer

The transaction dictionary fields `TransactionCategorizer` reads.  For the
string-valued keys the claims distinguish three states — key absent, key
present holding `None`, key present holding a string — encoded as
`Option (Option String)` (outer `none` = absent, `some none` = Python
`None`).  `dict.get(k, default)` on such a field: -/

/-- `transaction.get(key, default)` for the three-state string fields:
returns the default when the key is absent, otherwise the stored value
(which may be Python `None` = inner `none`). -/
def pyGet (field : Option (Option String)) (default : String) : Option String :=
  match field with
  | none => some default
  | some v => v

/-- The fields of the transaction dictionary that
`TransactionCategorizer.categorize_transaction` and its helpers read.
Numeric fields are `Option ℚ` (absent keys make `.get(k, 0)` return `0`,
and a stored `None` balance is falsy exactly like an absent one). -/
structure CatTransaction where
  description : Option (Option String)
  raw_body : Option (Option String)
  amount : Option ℚ
  balance_before : Option ℚ
  balance_after : Option ℚ
  transaction_date : Option (Option String)
deriving Repr, DecidableEq

/-- `TransactionCategorizer._categorize_by_description` (lines 78-103): falsy
(`None`/empty) description gives `''`; otherwise the first category of
`TRANSACTION_CATEGORIES` (skipping `OTHER`) one of whose keywords occurs in
the lowercased description wins; no match gives `''`. -/
def categorize_by_description (description : Option String) : String :=
  match description with
  | none => ""
  | some s =>
    if s = "" then ""
    else
      let dl := pyLower s
      match TRANSACTION_CATEGORIES.find? (fun p =>
        p.1 ≠ "OTHER" && p.2.any (fun k => strContains dl (pyLower k))) with
      | some p => p.1
      | none => ""

/-- `TransactionCategorizer._categorize_by_body` (lines 105-134): the
`if`/`elif` chain of phrase heuristics over the lowercased body. -/
def categorize_by_body (body : Option String) : String :=
  match body with
  | none => ""
  | some s =>
    if s = "" then ""
    else
      let bl := pyLower s
      if strContains bl "you have sent" || strContains bl "sent to" then "TRANSFER"
      else if strContains bl "you have received" || strContains bl "received from" then "DEPOSIT"
      else if strContains bl "cash out" || strContains bl "withdrawal" then "WITHDRAWAL"
      else if strContains bl "airtime" || strContains bl "top up" then "AIRTIME"
      else if strContains bl "payment" || strContains bl "paid to" then "PAYMENT"
      else if strContains bl "bill" || strContains bl "utility" then "BILL"
      else ""

/-- The final stage of `_infer_transaction_type` (lines 163-170):
`body = transaction.get('raw_body', '').lower()` followed by the two
phrase-polarity checks.  When `raw_body` holds Python `None`, `.lower()`
raises `AttributeError`, modelled as `Except.error`. -/
def infer_from_body (raw_body : Option (Option String)) : Except String String :=
  match pyGet raw_body "" with
  | none => .error "AttributeError: NoneType object has no attribute lower"
  | some s =>
    let bl := pyLower s
    if ["sent", "paid", "withdraw", "cash out"].any (fun p => strContains bl p) then
      .ok "DEBIT"
    else if ["received", "deposit", "credited"].any (fun p => strContains bl p) then
      .ok "CREDIT"
    else .ok "UNKNOWN"

/-- `TransactionCategorizer._infer_transaction_type` (lines 136-170):
category rules, then the balance-delta rule guarded by Python truthiness of
*both* balances (`if balance_before and balance_after`, so a `0` balance —
or an absent/`None` one, both of which `get(k, 0)` renders falsy — skips the
comparison), then the body-phrase rules. -/
def infer_transaction_type (t : CatTransaction) (category : String) :
    Except String String :=
  if category ∈ ["TRANSFER", "WITHDRAWAL", "PAYMENT", "AIRTIME", "BILL"] then
    .ok "DEBIT"
  else if category = "DEPOSIT" then
    .ok "CREDIT"
  else
    let balance_before := t.balance_before.getD 0
    let balance_after := t.balance_after.getD 0
    if balance_before ≠ 0 ∧ balance_after ≠ 0 then
      if balance_after > balance_before then .ok "CREDIT"
      else if balance_after < balance_before then .ok "DEBIT"
      else infer_from_body t.raw_body
    else infer_from_body t.raw_body

/-- `TransactionCategorizer._categorize_by_amount` (lines 172-189) with the
`AMOUNT_THRESHOLDS` table. -/
def categorize_by_amount (amount : ℚ) : String :=
  if amount ≤ THRESHOLD_SMALL then "SMALL"
  else if amount ≤ THRESHOLD_MEDIUM then "MEDIUM"
  else if amount ≤ THRESHOLD_LARGE then "LARGE"
  else "VERY_LARGE"

/-- Hour field of `datetime.fromisoformat` restricted to the shapes the
pipeline produces: `YYYY-MM-DD` (hour 0) or `YYYY-MM-DD⟨T or space⟩HH:MM:SS`
with in-range components.  Other strings are `none`, modelling the raised
`ValueError`; the richer grammar (fraction, offset) is not exercised by any
claim. -/
def isoHour (s : String) : Option Nat :=
  match s.data with
  | [y1, y2, y3, y4, '-', m1, m2, '-', d1, d2] =>
      match digitsToNat [y1, y2, y3, y4], digitsToNat [m1, m2], digitsToNat [d1, d2] with
      | some _, some mo, some dy =>
          if 1 ≤ mo ∧ mo ≤ 12 ∧ 1 ≤ dy ∧ dy ≤ 31 then some 0 else none
      | _, _, _ => none
  | y1 :: y2 :: y3 :: y4 :: '-' :: m1 :: m2 :: '-' :: d1 :: d2 :: sep :: h1 :: h2 :: ':' :: mi1 :: mi2 :: ':' :: s1 :: s2 :: [] =>
      match digitsToNat [y1, y2, y3, y4], digitsToNat [m1, m2], digitsToNat [d1, d2],
            digitsToNat [h1, h2], digitsToNat [mi1, mi2], digitsToNat [s1, s2] with
      | some _, some mo, some dy, some h, some mi, some se =>
          if (sep = 'T' ∨ sep = ' ') ∧ 1 ≤ mo ∧ mo ≤ 12 ∧ 1 ≤ dy ∧ dy ≤ 31 ∧
             h ≤ 23 ∧ mi ≤ 59 ∧ se ≤ 59 then some h else none
      | _, _, _, _, _, _ => none
  | _ => none

/-- `transaction_date.replace('Z', '+00:00')` (categorize.py line 206). -/
def replaceZ : List Char → List Char
  | [] => []
  | 'Z' :: t => '+' :: '0' :: '0' :: ':' :: '0' :: '0' :: replaceZ t
  | c :: t => c :: replaceZ t

/-- `TransactionCategorizer._categorize_by_time` (lines 191-220): falsy
input gives `UNKNOWN`; the `try` around `fromisoformat(...).hour` turns any
parse failure into `UNKNOWN` (the `Z` replacement touches only strings with
a `Z`, which the restricted grammar rejects anyway). -/
def categorize_by_time (transaction_date : Option String) : String :=
  match transaction_date with
  | none => "UNKNOWN"
  | some s =>
    if s = "" then "UNKNOWN"
    else
      match isoHour (String.mk (replaceZ s.data)) with
      | none => "UNKNOWN"
      | some hour =>
        if 5 ≤ hour ∧ hour < 12 then "MORNING"
        else if 12 ≤ hour ∧ hour < 17 then "AFTERNOON"
        else if 17 ≤ hour ∧ hour < 21 then "EVENING"
        else "NIGHT"

/-- The four classification fields `categorize_transaction` adds to (a copy
of) its input dictionary.  The untouched copied fields are left implicit. -/
structure CatResult where
  category : String
  transaction_type : String
  amount_category : String
  time_category : String
deriving Repr, DecidableEq

/-- The category cascade of `categorize_transaction` (lines 55-61): from the
description, else from the body, else `OTHER`. -/
def categorize_category (t : CatTransaction) : String :=
  let c1 := categorize_by_description (pyGet t.description "")
  let c2 := if c1 = "" then categorize_by_body (pyGet t.raw_body "") else c1
  if c2 = "" then "OTHER" else c2

/-- `TransactionCategorizer.categorize_transaction` (lines 43-76): category
from description, else from body, else `OTHER`; then type inference (which
can raise, aborting the call — modelled by `Except`); then amount and time
buckets. -/
def categorize_transaction (t : CatTransaction) : Except String CatResult :=
  let category := categorize_category t
  match infer_transaction_type t category with
  | .error e => .error e
  | .ok ty =>
      .ok { category := category, transaction_type := ty,
            amount_category := categorize_by_amount (t.amount.getD 0),
            time_category := categorize_by_time (pyGet t.transaction_date "") }

/-! ## `etl/clean_normalize.py` — the Field Normalizer -/

/-- `re.sub(r'\D', '', phone)` keeps exactly the digits (ASCII model of
`\d`; Unicode digit classes are not exercised). -/
def digitsOf (s : String) : List Char :=
  s.data.filter Char.isDigit

/-- `DataCleaner.normalize_phone_number` (clean_normalize.py lines 102-126).
`none` models a Python `None` or non-string argument (the
`not isinstance(phone, str)` branch).  Note the fall-through branch returns
the *digit-stripped* string (the local `phone` was reassigned), not the
original argument. -/
def normalize_phone_number (phone : Option String) : String :=
  match phone with
  | none => ""
  | some p =>
    if p = "" then ""
    else
      let digits := digitsOf p
      if ['2', '5', '6'].isPrefixOf digits then
        String.mk ('+' :: digits)
      else if digits.take 1 = ['0'] ∧ digits.length = 10 then
        String.mk ('+' :: '2' :: '5' :: '6' :: digits.drop 1)
      else if digits.length = 9 then
        String.mk ('+' :: '2' :: '5' :: '6' :: digits)
      else
        String.mk digits

/-- The remainders a match of the optional group `(\+256|256|0)?` may leave
(the regex engine backtracks over the alternatives, and over skipping the
group entirely). -/
def stripCCAlternatives (cs : List Char) : List (List Char) :=
  (if ['+', '2', '5', '6'].isPrefixOf cs then [cs.drop 4] else []) ++
  (if ['2', '5', '6'].isPrefixOf cs then [cs.drop 3] else []) ++
  (if ['0'].isPrefixOf cs then [cs.drop 1] else []) ++ [cs]

/-- `re.match` of a provider pattern of `PHONE_PATTERNS` (config.py 47-51):
`^(\+256|256|0)?(pp|…)\d{7}$` — after an optional country prefix, one of the
two-digit provider prefixes and exactly 7 digits. -/
def matchProviderPattern (pairs : List (List Char)) (phone : List Char) : Bool :=
  (stripCCAlternatives phone).any (fun rem =>
    pairs.any (fun pp => pp.isPrefixOf rem) && rem.length = 9 &&
      (rem.drop 2).all Char.isDigit)

/-- `re.match` of `PHONE_PATTERNS['UNKNOWN']`: `^(\+256|256|0)?\d{9}$`. -/
def matchUnknownPattern (phone : List Char) : Bool :=
  (stripCCAlternatives phone).any (fun rem =>
    rem.length = 9 && rem.all Char.isDigit)

/-- `DataCleaner.identify_network` (lines 128-145): first matching pattern of
`PHONE_PATTERNS` in table order wins; falsy or unmatched input is
`UNKNOWN`. -/
def identify_network (phone : String) : String :=
  if phone = "" then "UNKNOWN"
  else if matchProviderPattern [['7', '7'], ['7', '8'], ['7', '6']] phone.data then "MTN"
  else if matchProviderPattern [['7', '5'], ['7', '0'], ['7', '4']] phone.data then "AIRTEL"
  else if matchProviderPattern [['7', '9']] phone.data then "AFRICELL"
  else "UNKNOWN"

/-- A Python value fed to `DataCleaner.normalize_amount`: `None`, a number,
or a string (any other type also lands in the final `return 0.0`, behaving
like `None`). -/
inductive PyAmount where
  | pynone
  | num (q : ℚ)
  | str (s : String)
deriving Repr, DecidableEq

/-- `re.sub(r'[UGX,$\s]', '', amount)` (line 165). -/
def stripAmountChars (cs : List Char) : List Char :=
  cs.filter (fun c => ¬ (c = 'U' ∨ c = 'G' ∨ c = 'X' ∨ c = ',' ∨ c = '$' ∨ pyIsSpace c))

/-- Value of a digit run (empty = 0); helper for `pyFloat`. -/
def digitsVal (cs : List Char) : Nat :=
  cs.foldl (fun a c => a * 10 + (c.toNat - 48)) 0

/-- `float(s)` on the digit part: `digits`, `digits.`, `digits.digits`,
`.digits`; anything else raises (`none`).  Exponent, `inf`/`nan` forms are
not exercised by the pipeline and are modelled as unparsable. -/
def pyFloatCore (cs : List Char) : Option ℚ :=
  let ip := cs.takeWhile Char.isDigit
  match cs.dropWhile Char.isDigit with
  | [] => if ip ≠ [] then some (digitsVal ip : ℚ) else none
  | '.' :: fp =>
      if fp.all Char.isDigit ∧ (ip ≠ [] ∨ fp ≠ []) then
        some ((digitsVal ip : ℚ) + (digitsVal fp : ℚ) / ((10 : ℚ) ^ fp.length))
      else none
  | _ => none

/-- Python `float(s)`: optional surrounding whitespace and sign around
`pyFloatCore`. -/
def pyFloat (s : String) : Option ℚ :=
  match pyStrip s.data with
  | '-' :: rest => (pyFloatCore rest).map (fun q => -q)
  | '+' :: rest => pyFloatCore rest
  | rest => pyFloatCore rest

/-- `DataCleaner.normalize_amount` (lines 147-172): `None` → `0.0`, numbers
pass through, strings are stripped of currency noise and parsed, unparsable
strings → `0.0`. -/
def normalize_amount : PyAmount → ℚ
  | .pynone => 0
  | .num q => q
  | .str s => (pyFloat (String.mk (stripAmountChars s.data))).getD 0

/-- A Python value fed to `DataCleaner.normalize_date`: a `datetime`
(carried as its isoformat), a string, or anything else (`None` included),
which falls through to `datetime.now()`. -/
inductive PyDate where
  | dt (iso : String)
  | str (s : String)
  | pynone
deriving Repr, DecidableEq

/-- `dateutil.parser.parse(...).isoformat()`, an external library call:
modelled conservatively as accepting exactly the ISO-like strings `isoHour`
accepts, normalizing the date/time separator to `T`.  No claim depends on
this grammar. -/
def dateutil_parse_iso (s : String) : Option String :=
  match isoHour s with
  | none => none
  | some _ => some (String.mk (s.data.map (fun c => if c = ' ' then 'T' else c)))

/-- `DataCleaner.normalize_date` (lines 174-196): datetimes pass through as
isoformat, parsable strings are normalized, everything else falls back to
`datetime.now().isoformat()` (the `now` argument). -/
def normalize_date (now : String) : PyDate → String
  | .dt iso => iso
  | .str s => (dateutil_parse_iso s).getD now
  | .pynone => now

/-- Characters kept by `re.sub(r'[^\w\s\-.,()]', '', ·)` (line 215); ASCII
model of `\w`. -/
def pyAllowedTextChar (c : Char) : Bool :=
  c.isAlphanum ∨ c = '_' ∨ pyIsSpace c ∨ c = '-' ∨ c = '.' ∨ c = ',' ∨ c = '(' ∨ c = ')'

/-- `re.sub(r'\s+', ' ', ·)`: collapse each whitespace run to one space.
The flag records whether the previous character was whitespace. -/
def collapseWs : Bool → List Char → List Char
  | _, [] => []
  | prev, c :: t =>
      if pyIsSpace c then
        if prev then collapseWs true t else ' ' :: collapseWs true t
      else c :: collapseWs false t

/-- `DataCleaner.clean_text` (lines 198-217): falsy or non-string input →
`''`; otherwise strip, collapse whitespace, drop disallowed characters. -/
def clean_text (text : Option String) : String :=
  match text with
  | none => ""
  | some t =>
    if t = "" then ""
    else String.mk ((collapseWs false (pyStrip t.data)).filter pyAllowedTextChar)

/-! ### `hashlib.md5` (RFC 1321), used by `generate_transaction_id`

A full executable MD5 over `Nat` with explicit `% 2^32` reductions. -/

/-- Reduce to a 32-bit word. -/
def w32 (n : Nat) : Nat := n % 4294967296

/-- 32-bit bitwise complement (operands are kept below `2^32`). -/
def not32 (x : Nat) : Nat := x ^^^ 4294967295

/-- 32-bit left rotation of `x < 2^32` by `s ≤ 32` bits. -/
def rotl32 (x s : Nat) : Nat :=
  (x % 2 ^ (32 - s)) * 2 ^ s + x / 2 ^ (32 - s)

/-- The MD5 sine-derived constant table `T[1..64]`. -/
def md5K : List Nat :=
  [0xd76aa478, 0xe8c7b756, 0x242070db, 0xc1bdceee,
   0xf57c0faf, 0x4787c62a, 0xa8304613, 0xfd469501,
   0x698098d8, 0x8b44f7af, 0xffff5bb1, 0x895cd7be,
   0x6b901122, 0xfd987193, 0xa679438e, 0x49b40821,
   0xf61e2562, 0xc040b340, 0x265e5a51, 0xe9b6c7aa,
   0xd62f105d, 0x02441453, 0xd8a1e681, 0xe7d3fbc8,
   0x21e1cde6, 0xc33707d6, 0xf4d50d87, 0x455a14ed,
   0xa9e3e905, 0xfcefa3f8, 0x676f02d9, 0x8d2a4c8a,
   0xfffa3942, 0x8771f681, 0x6d9d6122, 0xfde5380c,
   0xa4beea44, 0x4bdecfa9, 0xf6bb4b60, 0xbebfbc70,
   0x289b7ec6, 0xeaa127fa, 0xd4ef3085, 0x04881d05,
   0xd9d4d039, 0xe6db99e5, 0x1fa27cf8, 0xc4ac5665,
   0xf4292244, 0x432aff97, 0xab9423a7, 0xfc93a039,
   0x655b59c3, 0x8f0ccc92, 0xffeff47d, 0x85845dd1,
   0x6fa87e4f, 0xfe2ce6e0, 0xa3014314, 0x4e0811a1,
   0xf7537e82, 0xbd3af235, 0x2ad7d2bb, 0xeb86d391]

/-- The MD5 per-round left-rotation amounts. -/
def md5S : List Nat :=
  [7, 12, 17, 22, 7, 12, 17, 22, 7, 12, 17, 22, 7, 12, 17, 22,
   5, 9, 14, 20, 5, 9, 14, 20, 5, 9, 14, 20, 5, 9, 14, 20,
   4, 11, 16, 23, 4, 11, 16, 23, 4, 11, 16, 23, 4, 11, 16, 23,
   6, 10, 15, 21, 6, 10, 15, 21, 6, 10, 15, 21, 6, 10, 15, 21]

/-- The four 32-bit MD5 chaining words. -/
structure MD5State where
  a : Nat
  b : Nat
  c : Nat
  d : Nat
deriving Repr, DecidableEq

/-- The MD5 initialization vector. -/
def md5Init : MD5State := ⟨0x67452301, 0xefcdab89, 0x98badcfe, 0x10325476⟩

/-- One of the 64 MD5 rounds over a 16-word message block `m`. -/
def md5Round (m : List Nat) (st : MD5State) (i : Nat) : MD5State :=
  let fg : Nat × Nat :=
    if i < 16 then ((st.b &&& st.c) ||| (not32 st.b &&& st.d), i)
    else if i < 32 then ((st.d &&& st.b) ||| (not32 st.d &&& st.c), (5 * i + 1) % 16)
    else if i < 48 then (st.b ^^^ st.c ^^^ st.d, (3 * i + 5) % 16)
    else (st.c ^^^ (st.b ||| not32 st.d), (7 * i) % 16)
  let tmp := w32 (st.a + fg.1 + md5K.getD i 0 + m.getD fg.2 0)
  ⟨st.d, w32 (st.b + rotl32 tmp (md5S.getD i 0)), st.b, st.c⟩

/-- Compress one 16-word block into the chaining state. -/
def md5Block (st : MD5State) (m : List Nat) : MD5State :=
  let e := (List.range 64).foldl (md5Round m) st
  ⟨w32 (st.a + e.a), w32 (st.b + e.b), w32 (st.c + e.c), w32 (st.d + e.d)⟩

/-- `k` little-endian bytes of `n`. -/
def leBytes : Nat → Nat → List Nat
  | 0, _ => []
  | k + 1, n => (n % 256) :: leBytes k (n / 256)

/-- Bytes (little-endian groups of 4) to 32-bit words. -/
def leWords : List Nat → List Nat
  | b0 :: b1 :: b2 :: b3 :: rest =>
      (b0 + 256 * b1 + 65536 * b2 + 16777216 * b3) :: leWords rest
  | _ => []

/-- MD5 padding: `0x80`, zeros to 56 mod 64, the 64-bit little-endian bit
length. -/
def md5Pad (msg : List Nat) : List Nat :=
  let zeros := (55 + 64 - msg.length % 64) % 64
  msg ++ 128 :: List.replicate zeros 0 ++ leBytes 8 (8 * msg.length)

/-- Split into 64-byte blocks. -/
def chunks64 : List Nat → List (List Nat)
  | [] => []
  | c :: t => (c :: t).take 64 :: chunks64 ((c :: t).drop 64)
termination_by l => l.length
decreasing_by
  simp only [List.length_drop, List.length_cons]
  omega

/-- The MD5 chaining state after digesting a byte sequence. -/
def md5Core (msg : List Nat) : MD5State :=
  ((chunks64 (md5Pad msg)).map leWords).foldl md5Block md5Init

/-- UTF-8 bytes of one character (`str.encode()`). -/
def utf8Bytes (c : Char) : List Nat :=
  let n := c.toNat
  if n < 128 then [n]
  else if n < 2048 then [192 + n / 64, 128 + n % 64]
  else if n < 65536 then [224 + n / 4096, 128 + (n / 64) % 64, 128 + n % 64]
  else [240 + n / 262144, 128 + (n / 4096) % 64, 128 + (n / 64) % 64, 128 + n % 64]

/-- `s.encode()`: UTF-8 bytes of a string. -/
def strBytes (s : String) : List Nat :=
  (s.data.map utf8Bytes).flatten

/-- One lowercase hex digit. -/
def hexDigitChar (n : Nat) : Char :=
  if n < 10 then Char.ofNat (48 + n) else Char.ofNat (87 + n)

/-- Two hex digits of a byte. -/
def byteHexChars (b : Nat) : List Char :=
  [hexDigitChar (b / 16), hexDigitChar (b % 16)]

/-- `hexdigest()` of a chaining state: the 16 digest bytes (each word
little-endian) in hex. -/
def stateHexChars (st : MD5State) : List Char :=
  ((leBytes 4 st.a ++ leBytes 4 st.b ++ leBytes 4 st.c ++ leBytes 4 st.d).map
    byteHexChars).flatten

/-- `hashlib.md5(s.encode()).hexdigest()`. -/
def md5_hexdigest (s : String) : String :=
  String.mk (stateHexChars (md5Core (strBytes s)))

/-! ### `generate_transaction_id` and the cleaning pipeline -/

/-- The five `str(transaction.get(k, ''))` values hashed by
`DataCleaner.generate_transaction_id` (lines 232-238); each field is carried
as its string form (an absent key contributes `str('') = ''`). -/
structure IdInput where
  transaction_date : String
  amount : String
  sender_phone : String
  receiver_phone : String
  description : String
deriving Repr, DecidableEq

/-- `'|'.join(key_data)` (line 240). -/
def dataString (t : IdInput) : String :=
  t.transaction_date ++ "|" ++ t.amount ++ "|" ++ t.sender_phone ++ "|" ++
    t.receiver_phone ++ "|" ++ t.description

/-- `DataCleaner.generate_transaction_id` (lines 219-242): the first 12 hex
characters of the MD5 of the joined key data. -/
def generate_transaction_id (t : IdInput) : String :=
  String.mk ((stateHexChars (md5Core (strBytes (dataString t)))).take 12)

/-- Fractional digits of `0 ≤ q < 1`, at most `n` of them (17 covers every
shortest double repr); helper for `floatStr`. -/
def fracDigitChars : ℚ → Nat → List Char
  | _, 0 => []
  | q, n + 1 =>
      if q = 0 then []
      else
        let d := (q * 10).floor
        Char.ofNat (48 + d.toNat) :: fracDigitChars (q * 10 - d) n

/-- Python `str()` of a float whose value is decimal-exact — the only floats
the pipeline feeds back into `str()` (outputs of `normalize_amount`):
sign, integer part, `.`, fractional digits (or `0`).  Exponent rendering for
huge/tiny magnitudes is not modelled (unexercised). -/
def floatStr (q : ℚ) : String :=
  let sign := if q < 0 then ['-'] else []
  let aq := |q|
  let ip : Nat := aq.floor.toNat
  let fp := aq - aq.floor
  let frac := if fp = 0 then ['0'] else fracDigitChars fp 17
  String.mk (sign ++ Nat.toDigits 10 ip ++ '.' :: frac)

/-- The raw transaction dictionary reaching `DataCleaner.clean_transaction`:
each key may be absent (`none`) or present with a loosely-typed Python
value. -/
structure CleanTxn where
  sender_phone : Option (Option String)
  receiver_phone : Option (Option String)
  amount : Option PyAmount
  balance_before : Option PyAmount
  balance_after : Option PyAmount
  fees : Option PyAmount
  transaction_date : Option PyDate
  description : Option (Option String)
  transaction_id : Option (Option String)
deriving Repr, DecidableEq

/-- The cleaned dictionary produced by `clean_transaction`: each field is
present exactly when its key was in the input (`transaction.copy()` plus
per-key conditionals); `transaction_id` is always present afterwards. -/
structure CleanedTxn where
  sender_phone : Option String
  sender_network : Option String
  receiver_phone : Option String
  receiver_network : Option String
  amount : Option ℚ
  balance_before : Option ℚ
  balance_after : Option ℚ
  fees : Option ℚ
  transaction_date : Option String
  description : Option String
  transaction_id : String
deriving Repr, DecidableEq

/-- The `str(cleaned.get(k, ''))` views of a cleaned record that
`generate_transaction_id` hashes (`str` is the identity on the stored
strings; an absent key contributes `''`; a float amount contributes its
`str()`). -/
def idInput_of_cleaned (c : CleanedTxn) : IdInput :=
  { transaction_date := c.transaction_date.getD "",
    amount := match c.amount with | none => "" | some q => floatStr q,
    sender_phone := c.sender_phone.getD "",
    receiver_phone := c.receiver_phone.getD "",
    description := c.description.getD "" }

/-- `DataCleaner.clean_transaction` (lines 49-100): normalize each present
field, then generate a transaction id when the key is missing or falsy.
The internal `try` returns `None` only on an unexpected exception, which the
typed model's domain excludes, so the function is total here; the
always-truthy cleaned dictionary is always appended by the caller. -/
def clean_transaction (now : String) (t : CleanTxn) : CleanedTxn :=
  let sender_phone := t.sender_phone.map normalize_phone_number
  let receiver_phone := t.receiver_phone.map normalize_phone_number
  let base : CleanedTxn :=
    { sender_phone := sender_phone,
      sender_network := sender_phone.map identify_network,
      receiver_phone := receiver_phone,
      receiver_network := receiver_phone.map identify_network,
      amount := t.amount.map normalize_amount,
      balance_before := t.balance_before.map normalize_amount,
      balance_after := t.balance_after.map normalize_amount,
      fees := t.fees.map normalize_amount,
      transaction_date := t.transaction_date.map (normalize_date now),
      description := t.description.map clean_text,
      transaction_id := "" }
  let tid :=
    match t.transaction_id with
    | some (some s) =>
        if s ≠ "" then s else generate_transaction_id (idInput_of_cleaned base)
    | _ => generate_transaction_id (idInput_of_cleaned base)
  { base with transaction_id := tid }

/-- `DataCleaner.validate_transaction` (lines 244-266): the three required
keys must be present and truthy (in Python, `0`/`0.0` and `''` are falsy),
then the amount must be strictly positive. -/
def validate_transaction (r : CleanedTxn) : Bool :=
  decide (r.transaction_id ≠ "") &&
  r.amount.isSome && decide (r.amount.getD 0 ≠ 0) &&
  r.transaction_date.isSome && decide (r.transaction_date.getD "" ≠ "") &&
  decide (0 < r.amount.getD 0)

/-- `DataCleaner.clean_transactions` (lines 25-47): clean each record; the
per-record `except` and the `if cleaned_transaction` truthiness test never
drop a record of the typed model (see `clean_transaction`). -/
def clean_transactions (now : String) (ts : List CleanTxn) : List CleanedTxn :=
  ts.map (clean_transaction now)

/-- `clean_and_normalize_data` (lines 269-289): clean, then keep exactly the
records passing `validate_transaction`. -/
def clean_and_normalize_data (now : String) (ts : List CleanTxn) : List CleanedTxn :=
  (clean_transactions now ts).filter validate_transaction

/-! ## `etl/load_db.py` — the Persistence Store -/

/-- The transaction dictionary handed to
`DatabaseManager._upsert_transaction`: the keys `_prepare_transaction_data`
reads, each possibly absent. -/
structure StoreTxn where
  transaction_id : Option String
  amount : Option ℚ
  currency : Option String
  transaction_date : Option String
  transaction_type : Option String
  category : Option String
  sender_phone : Option String
  receiver_phone : Option String
  sender_network : Option String
  receiver_network : Option String
  description : Option String
  balance_before : Option ℚ
  balance_after : Option ℚ
  fees : Option ℚ
  status : Option String
  created_at : Option String
deriving Repr, DecidableEq

/-- The column/value dictionary built by
`DatabaseManager._prepare_transaction_data` (lines 144-175).  A `none`
balance models a key *removed* by the final `None`-stripping comprehension:
`float(v) if transaction.get(k) else None` is `None` both for an absent key
and for a falsy (`0`/`0.0`) stored value. -/
structure PreparedData where
  transaction_id : String
  amount : ℚ
  currency : String
  transaction_date : String
  transaction_type : String
  category : String
  sender_phone : String
  receiver_phone : String
  sender_network : String
  receiver_network : String
  description : String
  balance_before : Option ℚ
  balance_after : Option ℚ
  fees : ℚ
  status : String
  created_at : String
deriving Repr, DecidableEq

/-- `_prepare_transaction_data` itself; `now` is `datetime.now().isoformat()`
at call time.  `fees` is `float(v) if get('fees') else 0`, which collapses
to the stored value with default `0`. -/
def prepare_transaction_data (t : StoreTxn) (now : String) : PreparedData :=
  { transaction_id := t.transaction_id.getD "",
    amount := t.amount.getD 0,
    currency := t.currency.getD "UGX",
    transaction_date := t.transaction_date.getD now,
    transaction_type := t.transaction_type.getD "UNKNOWN",
    category := t.category.getD "OTHER",
    sender_phone := t.sender_phone.getD "",
    receiver_phone := t.receiver_phone.getD "",
    sender_network := t.sender_network.getD "",
    receiver_network := t.receiver_network.getD "",
    description := t.description.getD "",
    balance_before := t.balance_before.bind (fun v => if v = 0 then none else some v),
    balance_after := t.balance_after.bind (fun v => if v = 0 then none else some v),
    fees := t.fees.getD 0,
    status := t.status.getD "SUCCESS",
    created_at := t.created_at.getD now }

/-- A row of the `transactions` table (config.py `DB_TABLES`), with the
surrogate `id` primary key. -/
structure Row where
  id : ℕ
  transaction_id : String
  amount : ℚ
  currency : String
  transaction_date : String
  transaction_type : String
  category : String
  sender_phone : String
  receiver_phone : String
  sender_network : String
  receiver_network : String
  description : String
  balance_before : Option ℚ
  balance_after : Option ℚ
  fees : ℚ
  status : String
  created_at : String
  updated_at : String
deriving Repr, DecidableEq

/-- The `transactions` table: rows in insertion order plus the
auto-increment counter. -/
structure DB where
  rows : List Row
  nextId : ℕ
deriving Repr, DecidableEq

/-- The `UPDATE transactions SET … WHERE id = ?` statement (lines 116-125)
applied to one row: every prepared column is assigned — `created_at`
included — plus the freshly stamped `updated_at`; a `None`-stripped balance
key is absent from the SET clause, so that column keeps its old value. -/
def applyUpdate (r : Row) (d : PreparedData) (now : String) : Row :=
  { r with
    transaction_id := d.transaction_id,
    amount := d.amount,
    currency := d.currency,
    transaction_date := d.transaction_date,
    transaction_type := d.transaction_type,
    category := d.category,
    sender_phone := d.sender_phone,
    receiver_phone := d.receiver_phone,
    sender_network := d.sender_network,
    receiver_network := d.receiver_network,
    description := d.description,
    balance_before := match d.balance_before with
      | some v => some v
      | none => r.balance_before,
    balance_after := match d.balance_after with
      | some v => some v
      | none => r.balance_after,
    fees := d.fees,
    status := d.status,
    created_at := d.created_at,
    updated_at := now }

/-- The row written by `INSERT INTO transactions (…) VALUES (…)` (lines
128-135) under auto-increment id `i`: the prepared columns; omitted columns
take their schema defaults (`updated_at DEFAULT CURRENT_TIMESTAMP`; absent
balance keys are NULL). -/
def insertedRow (i : ℕ) (d : PreparedData) (now : String) : Row :=
  { id := i,
    transaction_id := d.transaction_id,
    amount := d.amount,
    currency := d.currency,
    transaction_date := d.transaction_date,
    transaction_type := d.transaction_type,
    category := d.category,
    sender_phone := d.sender_phone,
    receiver_phone := d.receiver_phone,
    sender_network := d.sender_network,
    receiver_network := d.receiver_network,
    description := d.description,
    balance_before := d.balance_before,
    balance_after := d.balance_after,
    fees := d.fees,
    status := d.status,
    created_at := d.created_at,
    updated_at := now }

/-- The insert branch of the upsert: append the new row, bump the
auto-increment counter. -/
def insertRow (db : DB) (d : PreparedData) (now : String) : DB :=
  { rows := db.rows ++ [insertedRow db.nextId d now],
    nextId := db.nextId + 1 }

/-- `DatabaseManager._upsert_transaction` (lines 94-142): look up the first
row with the given business id (`SELECT id … fetchone()`), update it if
found, insert otherwise; `transaction['transaction_id']` on a dictionary
without the key raises `KeyError`, caught by the handler which returns
`False`. -/
def upsert_transaction (db : DB) (t : StoreTxn) (now : String) : DB × Bool :=
  match t.transaction_id with
  | none => (db, false)
  | some tid =>
    let d := prepare_transaction_data t now
    match db.rows.find? (fun r => r.transaction_id == tid) with
    | some r =>
        ({ db with rows := db.rows.map (fun r0 =>
            if r0.id = r.id then applyUpdate r0 d now else r0) }, true)
    | none => (insertRow db d now, true)

/-! ## Theorems settling the specification claims -/

/-- The extraction loop in closed form: the surviving records in order, and
no dead-letter records (the dead-letter branch is unreachable, see
`parse_step`). -/
lemma foldl_parse_step (l : List SmsElement) :
    ∀ acc, l.foldl parse_step acc =
      (acc.1 ++ l.filterMap extract_transaction_data, acc.2) := by
  induction l with
  | nil => intro acc; simp
  | cons e t ih =>
      intro acc
      rw [List.foldl_cons, List.filterMap_cons]
      cases hx : extract_transaction_data e with
      | none => simp [parse_step, hx, ih]
      | some v => simp [parse_step, hx, ih]

/-- `parse_xml_file` in closed form. -/
lemma parse_xml_file_eq (l : List SmsElement) :
    parse_xml_file l = (l.filterMap extract_transaction_data, []) := by
  simp [parse_xml_file, foldl_parse_step]

/-- C2 (code_bug): at the failing input — an SMS element whose `date`
attribute is the unparsable string `"invalid_date"`, the very input of the
repository's own test `test_extract_transaction_data_invalid_date` — the
extractor returns `None` instead of defaulting the timestamp to the current
time and emitting the record. -/
theorem extract_unparsable_timestamp_returns_none :
    extract_transaction_data
      ⟨some "+256772123456", some "invalid_date", some "Test SMS message"⟩ = none := by
  decide

/-- C3 (counterexample): a document consisting of one malformed SMS entry
(unparsable `date`) produces no output record *and no dead-letter record*:
the entry is silently discarded, refuting "that entry is written to the
dead-letter sink". -/
theorem malformed_entry_no_dead_letter :
    parse_xml_file [⟨some "+256701987654", some "not_a_number", some "hello"⟩]
      = ([], []) := by
  decide

/-- C3 (amended): a malformed entry (one on which extraction fails and
yields `None`) never aborts the batch — the surrounding entries are
processed exactly as without it — but it is silently discarded: the
dead-letter sink stays empty. -/
theorem malformed_entry_skipped_batch_continues
    (pre post : List SmsElement) (e : SmsElement)
    (he : extract_transaction_data e = none) :
    parse_xml_file (pre ++ e :: post) =
      ((parse_xml_file pre).1 ++ (parse_xml_file post).1, []) := by
  simp [parse_xml_file_eq, List.filterMap_append, List.filterMap_cons, he]

/-- Witness for `malformed_entry_skipped_batch_continues`: one good entry on
each side of a malformed one. -/
theorem malformed_entry_skipped_batch_continues_witness :
    extract_transaction_data ⟨some "a", some "xyz", some "b"⟩ = none ∧
    parse_xml_file
      [⟨some "s1", none, some "b1"⟩, ⟨some "a", some "xyz", some "b"⟩,
       ⟨some "s2", none, some "b2"⟩] =
      ((parse_xml_file [⟨some "s1", none, some "b1"⟩]).1 ++
        (parse_xml_file [⟨some "s2", none, some "b2"⟩]).1, []) :=
  ⟨by decide,
    malformed_entry_skipped_batch_continues
      [⟨some "s1", none, some "b1"⟩] [⟨some "s2", none, some "b2"⟩]
      ⟨some "a", some "xyz", some "b"⟩ (by decide)⟩

/-- C5 (counterexample): the malformed input `"12345"` (five digits: not a
country-prefixed number, not a 10-digit trunk number, not 9 digits) is
passed through as `"12345"`, not mapped to the empty string. -/
theorem normalize_phone_malformed_passthrough :
    normalize_phone_number (some "12345") = "12345" ∧ ("12345" : String) ≠ "" := by
  decide

/-- C5 (amended): the three documented mappings hold, and `None`/empty input
gives `""`; but an input matching none of the three rules is passed through
as its digit-stripped form (hence `""` exactly when it contains no
digits). -/
theorem normalize_phone_spec_cases (p : String) (hne : p ≠ "")
    (h1 : ¬ ['2', '5', '6'].isPrefixOf (digitsOf p))
    (h2 : ¬ ((digitsOf p).take 1 = ['0'] ∧ (digitsOf p).length = 10))
    (h3 : (digitsOf p).length ≠ 9) :
    normalize_phone_number (some "0772123456") = "+256772123456" ∧
    normalize_phone_number (some "772123456") = "+256772123456" ∧
    normalize_phone_number (some "256772123456") = "+256772123456" ∧
    normalize_phone_number none = "" ∧
    normalize_phone_number (some "") = "" ∧
    normalize_phone_number (some p) = String.mk (digitsOf p) := by
  refine ⟨by decide, by decide, by decide, by decide, by decide, ?_⟩
  unfold normalize_phone_number
  simp [hne, h1, h2, h3]

/-- Witness for `normalize_phone_spec_cases` at the malformed input
`"12-34"`. -/
theorem normalize_phone_spec_cases_witness :
    ("12-34" : String) ≠ "" ∧
    ¬ ['2', '5', '6'].isPrefixOf (digitsOf "12-34") ∧
    ¬ ((digitsOf "12-34").take 1 = ['0'] ∧ (digitsOf "12-34").length = 10) ∧
    (digitsOf "12-34").length ≠ 9 ∧
    normalize_phone_number (some "12-34") = String.mk (digitsOf "12-34") :=
  ⟨by decide, by decide, by decide, by decide,
    (normalize_phone_spec_cases "12-34" (by decide) (by decide) (by decide)
      (by decide)).2.2.2.2.2⟩

/-- C8 (confirmed): amount-bucket boundaries are inclusive on the lower
bucket at each of the three thresholds (1000, 50000, 500000), and
everything above the LARGE threshold is `VERY_LARGE`. -/
theorem amount_bucket_boundaries (a : ℚ) (ha : THRESHOLD_LARGE < a) :
    categorize_by_amount THRESHOLD_SMALL = "SMALL" ∧
    categorize_by_amount (THRESHOLD_SMALL + 1) = "MEDIUM" ∧
    categorize_by_amount THRESHOLD_MEDIUM = "MEDIUM" ∧
    categorize_by_amount (THRESHOLD_MEDIUM + 1) = "LARGE" ∧
    categorize_by_amount THRESHOLD_LARGE = "LARGE" ∧
    categorize_by_amount (THRESHOLD_LARGE + 1) = "VERY_LARGE" ∧
    categorize_by_amount a = "VERY_LARGE" := by
  have hS : ¬ a ≤ THRESHOLD_SMALL := by
    simp only [THRESHOLD_SMALL, THRESHOLD_LARGE] at *; linarith
  have hM : ¬ a ≤ THRESHOLD_MEDIUM := by
    simp only [THRESHOLD_MEDIUM, THRESHOLD_LARGE] at *; linarith
  have hL : ¬ a ≤ THRESHOLD_LARGE := by linarith
  refine ⟨?_, ?_, ?_, ?_, ?_, ?_, ?_⟩
  · simp [categorize_by_amount]
  · simp only [categorize_by_amount, THRESHOLD_SMALL, THRESHOLD_MEDIUM]
    norm_num
  · simp only [categorize_by_amount, THRESHOLD_SMALL, THRESHOLD_MEDIUM]
    norm_num
  · simp only [categorize_by_amount, THRESHOLD_SMALL, THRESHOLD_MEDIUM,
      THRESHOLD_LARGE]
    norm_num
  · simp only [categorize_by_amount, THRESHOLD_SMALL, THRESHOLD_MEDIUM,
      THRESHOLD_LARGE]
    norm_num
  · simp only [categorize_by_amount, THRESHOLD_SMALL, THRESHOLD_MEDIUM,
      THRESHOLD_LARGE]
    norm_num
  · simp only [categorize_by_amount, hS, hM, hL, if_false]

/-- Witness for `amount_bucket_boundaries` at `a = 600000`. -/
theorem amount_bucket_boundaries_witness :
    THRESHOLD_LARGE < (600000 : ℚ) ∧
    categorize_by_amount 600000 = "VERY_LARGE" := by
  have h : THRESHOLD_LARGE < (600000 : ℚ) := by
    simp only [THRESHOLD_LARGE]; norm_num
  exact ⟨h, (amount_bucket_boundaries 600000 h).2.2.2.2.2.2⟩

/-- C10 (confirmed): when a category rule does not already decide the type,
a transaction whose balances are both present but one of them `0` skips the
balance-delta comparison (Python truthiness of `0` fails the `and` guard)
and falls through to the body-phrase stage (`infer_from_body`, which yields
DEBIT/CREDIT/UNKNOWN). -/
theorem zero_balance_skips_balance_rule (t : CatTransaction) (cat : String)
    (hcat1 : ¬ cat ∈ (["TRANSFER", "WITHDRAWAL", "PAYMENT", "AIRTIME", "BILL"] : List String))
    (hcat2 : cat ≠ "DEPOSIT")
    (_hpres : t.balance_before.isSome ∧ t.balance_after.isSome)
    (hzero : t.balance_before = some 0 ∨ t.balance_after = some 0) :
    infer_transaction_type t cat = infer_from_body t.raw_body := by
  unfold infer_transaction_type
  rw [if_neg hcat1, if_neg hcat2]
  rcases hzero with h | h <;> simp [h]

/-- Witness for `zero_balance_skips_balance_rule`: both balances present,
`balance_after = 0`, body says "received". -/
theorem zero_balance_skips_balance_rule_witness :
    ¬ "OTHER" ∈ (["TRANSFER", "WITHDRAWAL", "PAYMENT", "AIRTIME", "BILL"] : List String) ∧
    ("OTHER" : String) ≠ "DEPOSIT" ∧
    ((⟨none, some (some "received from Jane"), none, some 5000, some 0, none⟩ :
        CatTransaction).balance_before.isSome ∧
      (⟨none, some (some "received from Jane"), none, some 5000, some 0, none⟩ :
        CatTransaction).balance_after.isSome) ∧
    infer_transaction_type
        ⟨none, some (some "received from Jane"), none, some 5000, some 0, none⟩ "OTHER" =
      infer_from_body (some (some "received from Jane")) :=
  ⟨by decide, by decide, by decide,
    zero_balance_skips_balance_rule
      ⟨none, some (some "received from Jane"), none, some 5000, some 0, none⟩ "OTHER"
      (by decide) (by decide) (by decide) (Or.inr rfl)⟩

/-- The body-phrase stage returns `ok` with one of the three types whenever
`raw_body` is not a present-`None` value. -/
lemma infer_from_body_ok (rb : Option (Option String)) (h : rb ≠ some none) :
    ∃ v, infer_from_body rb = .ok v ∧
      (v = "DEBIT" ∨ v = "CREDIT" ∨ v = "UNKNOWN") := by
  unfold infer_from_body
  match rb with
  | some none => exact absurd rfl h
  | none =>
      simp only [pyGet]
      split
      · exact ⟨"DEBIT", rfl, Or.inl rfl⟩
      split
      · exact ⟨"CREDIT", rfl, Or.inr (Or.inl rfl)⟩
      · exact ⟨"UNKNOWN", rfl, Or.inr (Or.inr rfl)⟩
  | some (some s) =>
      simp only [pyGet]
      split
      · exact ⟨"DEBIT", rfl, Or.inl rfl⟩
      split
      · exact ⟨"CREDIT", rfl, Or.inr (Or.inl rfl)⟩
      · exact ⟨"UNKNOWN", rfl, Or.inr (Or.inr rfl)⟩

/-- Type inference returns `ok` with one of the three types whenever
`raw_body` is not a present-`None` value. -/
lemma infer_transaction_type_ok (t : CatTransaction) (cat : String)
    (h : t.raw_body ≠ some none) :
    ∃ v, infer_transaction_type t cat = .ok v ∧
      (v = "DEBIT" ∨ v = "CREDIT" ∨ v = "UNKNOWN") := by
  unfold infer_transaction_type
  split
  · exact ⟨"DEBIT", rfl, Or.inl rfl⟩
  split
  · exact ⟨"CREDIT", rfl, Or.inr (Or.inl rfl)⟩
  dsimp only
  split
  · split
    · exact ⟨"CREDIT", rfl, Or.inr (Or.inl rfl)⟩
    split
    · exact ⟨"DEBIT", rfl, Or.inl rfl⟩
    · exact infer_from_body_ok t.raw_body h
  · exact infer_from_body_ok t.raw_body h

/-- C4 (counterexample): a transaction dictionary whose `raw_body` key is
present with value `None` (and no other field set) makes
`categorize_transaction` raise — `.get('raw_body', '')` returns `None` and
`.lower()` on it raises `AttributeError` inside `_infer_transaction_type` —
refuting "never raises an exception". -/
theorem categorize_raises_on_none_raw_body :
    categorize_transaction ⟨none, some none, none, none, none, none⟩ =
      .error "AttributeError: NoneType object has no attribute lower" := by
  decide

/-- C4 (amended): for every transaction whose `raw_body` is not a
present-`None` value (absent or string-valued, empty included, and any
`description` including `None`), `categorize_transaction` never raises, its
category is non-empty — `OTHER` when neither the description keywords nor
the body phrases match — and its type is one of DEBIT/CREDIT/UNKNOWN. -/
theorem categorize_total_when_raw_body_not_none (t : CatTransaction)
    (h : t.raw_body ≠ some none) :
    ∃ r, categorize_transaction t = .ok r ∧ r.category ≠ "" ∧
      (r.transaction_type = "DEBIT" ∨ r.transaction_type = "CREDIT" ∨
        r.transaction_type = "UNKNOWN") ∧
      (categorize_by_description (pyGet t.description "") = "" ∧
        categorize_by_body (pyGet t.raw_body "") = "" → r.category = "OTHER") := by
  obtain ⟨v, hv, hv3⟩ := infer_transaction_type_ok t (categorize_category t) h
  refine ⟨⟨categorize_category t, v,
      categorize_by_amount (t.amount.getD 0),
      categorize_by_time (pyGet t.transaction_date "")⟩, ?_, ?_, hv3, ?_⟩
  · unfold categorize_transaction
    dsimp only
    rw [hv]
  · show categorize_category t ≠ ""
    unfold categorize_category
    dsimp only
    split <;> first | assumption | (split <;> first | decide | assumption)
  · intro ⟨hd, hb⟩
    show categorize_category t = "OTHER"
    unfold categorize_category
    dsimp only
    rw [hd, hb]
    decide

/-- Witness for `categorize_total_when_raw_body_not_none`: a `None`
description and an absent `raw_body`. -/
theorem categorize_total_when_raw_body_not_none_witness :
    ((⟨some none, none, some 25, none, none, none⟩ : CatTransaction).raw_body ≠ some none) ∧
    (∃ r, categorize_transaction (⟨some none, none, some 25, none, none, none⟩ : CatTransaction) = .ok r ∧
      r.category ≠ "" ∧
      (r.transaction_type = "DEBIT" ∨ r.transaction_type = "CREDIT" ∨
        r.transaction_type = "UNKNOWN") ∧
      (categorize_by_description (pyGet (some none) "") = "" ∧
        categorize_by_body (pyGet (none : Option (Option String)) "") = "" →
          r.category = "OTHER")) :=
  ⟨by decide,
    categorize_total_when_raw_body_not_none
      (⟨some none, none, some 25, none, none, none⟩ : CatTransaction) (by decide)⟩

/-- C7 (confirmed): a record whose amount is `0` or negative is classified
not persistable by `validate_transaction`, and `clean_and_normalize_data`
never emits it — indeed everything it emits passes validation — so the
store's contents are untouched by attempting to process such a record. -/
theorem zero_amount_dropped_before_persistence
    (ts : List CleanTxn) (t : CleanTxn) (now : String) (q : ℚ)
    (ht : t.amount = some (.num q)) (hq : q ≤ 0) :
    validate_transaction (clean_transaction now t) = false ∧
    clean_transaction now t ∉ clean_and_normalize_data now ts ∧
    ∀ r ∈ clean_and_normalize_data now ts, validate_transaction r = true := by
  have hamt : (clean_transaction now t).amount = some q := by
    simp [clean_transaction, ht, normalize_amount]
  have hval : validate_transaction (clean_transaction now t) = false := by
    unfold validate_transaction
    rw [hamt]
    by_cases h0 : q = 0
    · simp [h0]
    · have hpos : ¬ (0 < q) := fun h => h0 (le_antisymm hq h.le)
      simp [h0, hpos]
  refine ⟨hval, ?_, ?_⟩
  · intro hmem
    have := List.of_mem_filter hmem
    rw [hval] at this
    cases this
  · intro r hr
    exact List.of_mem_filter hr

/-- Witness for `zero_amount_dropped_before_persistence`: a zero-amount
record in a one-record batch. -/
theorem zero_amount_dropped_before_persistence_witness :
    (⟨none, none, some (.num 0), none, none, none,
        some (.dt "2023-10-15T14:30:00"), none, some (some "tx1")⟩ :
      CleanTxn).amount = some (.num 0) ∧
    (0 : ℚ) ≤ 0 ∧
    validate_transaction
      (clean_transaction "T"
        ⟨none, none, some (.num 0), none, none, none,
          some (.dt "2023-10-15T14:30:00"), none, some (some "tx1")⟩) = false :=
  ⟨by decide, by decide,
    (zero_amount_dropped_before_persistence
      [⟨none, none, some (.num 0), none, none, none,
          some (.dt "2023-10-15T14:30:00"), none, some (some "tx1")⟩]
      ⟨none, none, some (.num 0), none, none, none,
        some (.dt "2023-10-15T14:30:00"), none, some (some "tx1")⟩
      "T" 0 (by decide) (by decide)).1⟩

/-- C1 (confirmed): starting from any well-formed table without the business
id, upserting twice with that id (different field values allowed) leaves
exactly one row carrying it, and that row holds the prepared column values
of the *second* upsert — `updated_at` stamped at the second call — never a
duplicate.  (A balance column is part of the second upsert's values exactly
when its prepared value survives the `None`-stripping.) -/
theorem upsert_twice_single_row (db0 : DB) (t1 t2 : StoreTxn)
    (tid now1 now2 : String)
    (hid1 : t1.transaction_id = some tid) (hid2 : t2.transaction_id = some tid)
    (hfresh : ∀ r ∈ db0.rows, r.transaction_id ≠ tid)
    (hbound : ∀ r ∈ db0.rows, r.id < db0.nextId) :
    ∃ r,
      (upsert_transaction (upsert_transaction db0 t1 now1).1 t2 now2).1.rows.filter
          (fun r0 => r0.transaction_id == tid) = [r] ∧
      r.transaction_id = tid ∧
      r.amount = (prepare_transaction_data t2 now2).amount ∧
      r.currency = (prepare_transaction_data t2 now2).currency ∧
      r.transaction_date = (prepare_transaction_data t2 now2).transaction_date ∧
      r.transaction_type = (prepare_transaction_data t2 now2).transaction_type ∧
      r.category = (prepare_transaction_data t2 now2).category ∧
      r.sender_phone = (prepare_transaction_data t2 now2).sender_phone ∧
      r.receiver_phone = (prepare_transaction_data t2 now2).receiver_phone ∧
      r.sender_network = (prepare_transaction_data t2 now2).sender_network ∧
      r.receiver_network = (prepare_transaction_data t2 now2).receiver_network ∧
      r.description = (prepare_transaction_data t2 now2).description ∧
      r.fees = (prepare_transaction_data t2 now2).fees ∧
      r.status = (prepare_transaction_data t2 now2).status ∧
      r.created_at = (prepare_transaction_data t2 now2).created_at ∧
      r.updated_at = now2 ∧
      (∀ v, (prepare_transaction_data t2 now2).balance_before = some v →
        r.balance_before = some v) ∧
      (∀ v, (prepare_transaction_data t2 now2).balance_after = some v →
        r.balance_after = some v) := by
  have hfind0 : db0.rows.find? (fun r0 => r0.transaction_id == tid) = none :=
    List.find?_eq_none.mpr (fun x hx => by simp [hfresh x hx])
  set d1 := prepare_transaction_data t1 now1 with hd1
  set d2 := prepare_transaction_data t2 now2 with hd2
  set nr := insertedRow db0.nextId d1 now1 with hnr
  have hnrtid : nr.transaction_id = tid := by
    simp [hnr, insertedRow, hd1, prepare_transaction_data, hid1]
  have hnrid : nr.id = db0.nextId := rfl
  have hdb1 : (upsert_transaction db0 t1 now1).1 =
      ⟨db0.rows ++ [nr], db0.nextId + 1⟩ := by
    unfold upsert_transaction
    rw [hid1]
    dsimp only
    rw [hfind0]
    rfl
  have hfind1 : (db0.rows ++ [nr]).find?
      (fun r0 => r0.transaction_id == tid) = some nr := by
    rw [List.find?_append, hfind0]
    simp [List.find?, hnrtid]
  have hdb2 : (upsert_transaction (⟨db0.rows ++ [nr], db0.nextId + 1⟩ : DB) t2 now2).1 =
      ⟨(db0.rows ++ [nr]).map (fun r0 =>
          if r0.id = nr.id then applyUpdate r0 d2 now2 else r0),
        db0.nextId + 1⟩ := by
    unfold upsert_transaction
    rw [hid2]
    dsimp only
    rw [hfind1]
  have hmap : (db0.rows ++ [nr]).map (fun r0 =>
      if r0.id = nr.id then applyUpdate r0 d2 now2 else r0) =
      db0.rows ++ [applyUpdate nr d2 now2] := by
    rw [List.map_append]
    congr 1
    · conv_rhs => rw [← List.map_id db0.rows]
      refine List.map_congr_left (fun x hx => ?_)
      have hxid : x.id ≠ nr.id := by
        have := hbound x hx
        rw [hnrid]
        omega
      simp [hxid]
    · simp
  have hupdtid : (applyUpdate nr d2 now2).transaction_id = tid := by
    simp [applyUpdate, hd2, prepare_transaction_data, hid2]
  refine ⟨applyUpdate nr d2 now2, ?_, hupdtid, ?_, ?_, ?_, ?_, ?_, ?_, ?_, ?_,
    ?_, ?_, ?_, ?_, ?_, ?_, ?_, ?_⟩
  · rw [hdb1, hdb2, hmap]
    dsimp only
    rw [List.filter_append,
      List.filter_eq_nil_iff.mpr (fun a ha => by simp [hfresh a ha])]
    simp [hupdtid]
  · simp [applyUpdate]
  · simp [applyUpdate]
  · simp [applyUpdate]
  · simp [applyUpdate]
  · simp [applyUpdate]
  · simp [applyUpdate]
  · simp [applyUpdate]
  · simp [applyUpdate]
  · simp [applyUpdate]
  · simp [applyUpdate]
  · simp [applyUpdate]
  · simp [applyUpdate]
  · simp [applyUpdate]
  · simp [applyUpdate]
  · intro v hv
    simp [applyUpdate, hv]
  · intro v hv
    simp [applyUpdate, hv]

/-- Witness for `upsert_twice_single_row`: an empty table, two upserts of
`"tx1"` with different amounts and categories. -/
theorem upsert_twice_single_row_witness :
    ((⟨some "tx1", some 100, none, some "D1", some "DEBIT", some "TRANSFER",
        none, none, none, none, none, none, none, none, none, none⟩ :
      StoreTxn).transaction_id = some "tx1") ∧
    ((⟨some "tx1", some 250, none, some "D2", some "CREDIT", some "DEPOSIT",
        none, none, none, none, none, none, none, none, none, none⟩ :
      StoreTxn).transaction_id = some "tx1") ∧
    (∀ r ∈ (⟨[], 1⟩ : DB).rows, r.transaction_id ≠ "tx1") ∧
    (∀ r ∈ (⟨[], 1⟩ : DB).rows, r.id < (⟨[], 1⟩ : DB).nextId) ∧
    ∃ r,
      (upsert_transaction
        (upsert_transaction (⟨[], 1⟩ : DB)
          ⟨some "tx1", some 100, none, some "D1", some "DEBIT", some "TRANSFER",
            none, none, none, none, none, none, none, none, none, none⟩ "T1").1
        ⟨some "tx1", some 250, none, some "D2", some "CREDIT", some "DEPOSIT",
          none, none, none, none, none, none, none, none, none, none⟩ "T2").1.rows.filter
          (fun r0 => r0.transaction_id == "tx1") = [r] ∧
      r.transaction_id = "tx1" ∧
      r.amount = (prepare_transaction_data
        ⟨some "tx1", some 250, none, some "D2", some "CREDIT", some "DEPOSIT",
          none, none, none, none, none, none, none, none, none, none⟩ "T2").amount :=
  ⟨rfl, rfl, by simp, by simp,
    have h := upsert_twice_single_row (⟨[], 1⟩ : DB)
      ⟨some "tx1", some 100, none, some "D1", some "DEBIT", some "TRANSFER",
        none, none, none, none, none, none, none, none, none, none⟩
      ⟨some "tx1", some 250, none, some "D2", some "CREDIT", some "DEPOSIT",
        none, none, none, none, none, none, none, none, none, none⟩
      "tx1" "T1" "T2" rfl rfl (by simp) (by simp)
    h.elim (fun r hr => ⟨r, hr.1, hr.2.1, hr.2.2.1⟩)⟩

/-- C9 (confirmed): when the upsert finds an existing row for the id and the
incoming record carries no `created_at`, the UPDATE branch rewrites *every*
prepared column including `created_at`, which `_prepare_transaction_data`
defaulted to the call-time `now` — so the updated row's `created_at` becomes
`now`, overwriting the original creation timestamp whenever it differed. -/
theorem update_overwrites_created_at (db : DB) (t : StoreTxn)
    (tid now : String) (r : Row)
    (htid : t.transaction_id = some tid) (hc : t.created_at = none)
    (hfind : db.rows.find? (fun r0 => r0.transaction_id == tid) = some r) :
    ∃ r' ∈ (upsert_transaction db t now).1.rows, r'.id = r.id ∧
      r'.created_at = now ∧
      (now ≠ r.created_at → r'.created_at ≠ r.created_at) := by
  have hdb : (upsert_transaction db t now).1 =
      ⟨db.rows.map (fun r0 =>
        if r0.id = r.id then applyUpdate r0 (prepare_transaction_data t now) now
        else r0), db.nextId⟩ := by
    unfold upsert_transaction
    rw [htid]
    dsimp only
    rw [hfind]
  have hmem : r ∈ db.rows := List.mem_of_find?_eq_some hfind
  have hca : (applyUpdate r (prepare_transaction_data t now) now).created_at = now := by
    simp [applyUpdate, prepare_transaction_data, hc]
  refine ⟨applyUpdate r (prepare_transaction_data t now) now, ?_, rfl, hca, ?_⟩
  · rw [hdb]
    dsimp only
    have : (fun r0 =>
        if r0.id = r.id then applyUpdate r0 (prepare_transaction_data t now) now
        else r0) r = applyUpdate r (prepare_transaction_data t now) now := by simp
    rw [← this]
    exact List.mem_map_of_mem _ hmem
  · intro hne
    rw [hca]
    exact hne

/-- Witness for `update_overwrites_created_at`: a one-row table whose row
was created at `"T0"`, updated at time `"T9"`. -/
theorem update_overwrites_created_at_witness :
    ((⟨some "tx1", some 250, none, some "D2", none, none, none, none, none,
        none, none, none, none, none, none, none⟩ : StoreTxn).transaction_id
      = some "tx1") ∧
    ((⟨some "tx1", some 250, none, some "D2", none, none, none, none, none,
        none, none, none, none, none, none, none⟩ : StoreTxn).created_at = none) ∧
    ((⟨[⟨1, "tx1", 100, "UGX", "D1", "DEBIT", "TRANSFER", "", "", "", "", "",
        none, none, 0, "SUCCESS", "T0", "T0"⟩], 2⟩ : DB).rows.find?
      (fun r0 => r0.transaction_id == "tx1") =
        some ⟨1, "tx1", 100, "UGX", "D1", "DEBIT", "TRANSFER", "", "", "", "",
          "", none, none, 0, "SUCCESS", "T0", "T0"⟩) ∧
    ∃ r' ∈ (upsert_transaction
        (⟨[⟨1, "tx1", 100, "UGX", "D1", "DEBIT", "TRANSFER", "", "", "", "", "",
          none, none, 0, "SUCCESS", "T0", "T0"⟩], 2⟩ : DB)
        ⟨some "tx1", some 250, none, some "D2", none, none, none, none, none,
          none, none, none, none, none, none, none⟩ "T9").1.rows,
      r'.id = (⟨1, "tx1", 100, "UGX", "D1", "DEBIT", "TRANSFER", "", "", "", "",
        "", none, none, 0, "SUCCESS", "T0", "T0"⟩ : Row).id ∧
      r'.created_at = "T9" ∧
      ("T9" ≠ (⟨1, "tx1", 100, "UGX", "D1", "DEBIT", "TRANSFER", "", "", "", "",
        "", none, none, 0, "SUCCESS", "T0", "T0"⟩ : Row).created_at →
        r'.created_at ≠ (⟨1, "tx1", 100, "UGX", "D1", "DEBIT", "TRANSFER", "",
          "", "", "", "", none, none, 0, "SUCCESS", "T0", "T0"⟩ : Row).created_at) :=
  ⟨rfl, rfl, by decide,
    update_overwrites_created_at
      (⟨[⟨1, "tx1", 100, "UGX", "D1", "DEBIT", "TRANSFER", "", "", "", "", "",
        none, none, 0, "SUCCESS", "T0", "T0"⟩], 2⟩ : DB)
      ⟨some "tx1", some 250, none, some "D2", none, none, none, none, none,
        none, none, none, none, none, none, none⟩
      "tx1" "T9"
      ⟨1, "tx1", 100, "UGX", "D1", "DEBIT", "TRANSFER", "", "", "", "", "",
        none, none, 0, "SUCCESS", "T0", "T0"⟩
      rfl rfl (by decide)⟩

/-- `u1` and `u2` differ in exactly one of the five id-relevant fields. -/
def DiffersInExactlyOne (u1 u2 : IdInput) : Prop :=
  (u1.transaction_date ≠ u2.transaction_date ∧ u1.amount = u2.amount ∧
    u1.sender_phone = u2.sender_phone ∧ u1.receiver_phone = u2.receiver_phone ∧
    u1.description = u2.description) ∨
  (u1.transaction_date = u2.transaction_date ∧ u1.amount ≠ u2.amount ∧
    u1.sender_phone = u2.sender_phone ∧ u1.receiver_phone = u2.receiver_phone ∧
    u1.description = u2.description) ∨
  (u1.transaction_date = u2.transaction_date ∧ u1.amount = u2.amount ∧
    u1.sender_phone ≠ u2.sender_phone ∧ u1.receiver_phone = u2.receiver_phone ∧
    u1.description = u2.description) ∨
  (u1.transaction_date = u2.transaction_date ∧ u1.amount = u2.amount ∧
    u1.sender_phone = u2.sender_phone ∧ u1.receiver_phone ≠ u2.receiver_phone ∧
    u1.description = u2.description) ∨
  (u1.transaction_date = u2.transaction_date ∧ u1.amount = u2.amount ∧
    u1.sender_phone = u2.sender_phone ∧ u1.receiver_phone = u2.receiver_phone ∧
    u1.description ≠ u2.description)

instance (u1 u2 : IdInput) : Decidable (DiffersInExactlyOne u1 u2) := by
  unfold DiffersInExactlyOne
  infer_instance

/-- C6 (amended): identical content (all five fields equal) always yields
the same derived id; and content differing in exactly one field always
yields a *different pipe-joined composite string* fed to the hash — though
the 48-bit truncated hash itself cannot separate all distinct composites
(see the collision counterexample). -/
theorem generate_id_deterministic_and_content_injective
    (t1 t2 u1 u2 : IdInput)
    (heq : t1.transaction_date = t2.transaction_date ∧ t1.amount = t2.amount ∧
      t1.sender_phone = t2.sender_phone ∧ t1.receiver_phone = t2.receiver_phone ∧
      t1.description = t2.description)
    (hdiff : DiffersInExactlyOne u1 u2) :
    generate_transaction_id t1 = generate_transaction_id t2 ∧
    dataString u1 ≠ dataString u2 := by
  constructor
  · obtain ⟨h1, h2, h3, h4, h5⟩ := heq
    have ht : t1 = t2 := by
      cases t1; cases t2; simp_all
    rw [ht]
  · intro hcon
    have hd : (dataString u1).data = (dataString u2).data :=
      congrArg String.data hcon
    simp only [dataString, String.data_append, List.append_assoc] at hd
    rcases hdiff with ⟨hne, h2, h3, h4, h5⟩ | ⟨h1, hne, h3, h4, h5⟩ |
      ⟨h1, h2, hne, h4, h5⟩ | ⟨h1, h2, h3, hne, h5⟩ | ⟨h1, h2, h3, h4, hne⟩
    · rw [h2, h3, h4, h5] at hd
      exact hne (String.ext (List.append_cancel_right hd))
    · rw [h1, h3, h4, h5] at hd
      iterate 2 replace hd := List.append_cancel_left hd
      exact hne (String.ext (List.append_cancel_right hd))
    · rw [h1, h2, h4, h5] at hd
      iterate 4 replace hd := List.append_cancel_left hd
      exact hne (String.ext (List.append_cancel_right hd))
    · rw [h1, h2, h3, h5] at hd
      iterate 6 replace hd := List.append_cancel_left hd
      exact hne (String.ext (List.append_cancel_right hd))
    · rw [h1, h2, h3, h4] at hd
      iterate 8 replace hd := List.append_cancel_left hd
      exact hne (String.ext hd)

/-- Witness for `generate_id_deterministic_and_content_injective`: an equal
pair and a description-only-differing pair. -/
theorem generate_id_deterministic_and_content_injective_witness :
    ((⟨"d", "50000.0", "+2567", "+2561", "pay"⟩ : IdInput).transaction_date =
        (⟨"d", "50000.0", "+2567", "+2561", "pay"⟩ : IdInput).transaction_date ∧
      (⟨"d", "50000.0", "+2567", "+2561", "pay"⟩ : IdInput).amount =
        (⟨"d", "50000.0", "+2567", "+2561", "pay"⟩ : IdInput).amount ∧
      (⟨"d", "50000.0", "+2567", "+2561", "pay"⟩ : IdInput).sender_phone =
        (⟨"d", "50000.0", "+2567", "+2561", "pay"⟩ : IdInput).sender_phone ∧
      (⟨"d", "50000.0", "+2567", "+2561", "pay"⟩ : IdInput).receiver_phone =
        (⟨"d", "50000.0", "+2567", "+2561", "pay"⟩ : IdInput).receiver_phone ∧
      (⟨"d", "50000.0", "+2567", "+2561", "pay"⟩ : IdInput).description =
        (⟨"d", "50000.0", "+2567", "+2561", "pay"⟩ : IdInput).description) ∧
    DiffersInExactlyOne ⟨"d", "50000.0", "+2567", "+2561", "pay"⟩
      ⟨"d", "50000.0", "+2567", "+2561", "rent"⟩ ∧
    (generate_transaction_id ⟨"d", "50000.0", "+2567", "+2561", "pay"⟩ =
        generate_transaction_id ⟨"d", "50000.0", "+2567", "+2561", "pay"⟩ ∧
      dataString ⟨"d", "50000.0", "+2567", "+2561", "pay"⟩ ≠
        dataString ⟨"d", "50000.0", "+2567", "+2561", "rent"⟩) :=
  ⟨⟨rfl, rfl, rfl, rfl, rfl⟩, by decide,
    generate_id_deterministic_and_content_injective
      ⟨"d", "50000.0", "+2567", "+2561", "pay"⟩
      ⟨"d", "50000.0", "+2567", "+2561", "pay"⟩
      ⟨"d", "50000.0", "+2567", "+2561", "pay"⟩
      ⟨"d", "50000.0", "+2567", "+2561", "rent"⟩
      ⟨rfl, rfl, rfl, rfl, rfl⟩ (by decide)⟩

/-! ### The truncated hash cannot be injective: a pigeonhole collision -/

/-- The id-generation inputs used for the collision argument: only the
description varies (with `n` copies of `'a'`). -/
def collisionInput (n : ℕ) : IdInput :=
  ⟨"", "", "", "", String.mk (List.replicate n 'a')⟩

/-- The four chaining words packed into one number below `2^128`. -/
def packState (st : MD5State) : ℕ :=
  st.a + 4294967296 * (st.b + 4294967296 * (st.c + 4294967296 * st.d))

/-- All four chaining words are 32-bit. -/
def StateBounded (st : MD5State) : Prop :=
  st.a < 4294967296 ∧ st.b < 4294967296 ∧ st.c < 4294967296 ∧ st.d < 4294967296

lemma w32_lt (n : ℕ) : w32 n < 4294967296 :=
  Nat.mod_lt _ (by norm_num)

lemma md5Block_bounded (st : MD5State) (m : List Nat) :
    StateBounded (md5Block st m) :=
  ⟨w32_lt _, w32_lt _, w32_lt _, w32_lt _⟩

lemma md5Core_bounded (msg : List Nat) : StateBounded (md5Core msg) := by
  have key : ∀ (l : List (List Nat)) (st : MD5State), StateBounded st →
      StateBounded (l.foldl md5Block st) := by
    intro l
    induction l with
    | nil => exact fun st h => h
    | cons x xs ih => exact fun st _ => ih _ (md5Block_bounded st x)
  exact key _ md5Init
    ⟨by norm_num [md5Init], by norm_num [md5Init], by norm_num [md5Init],
      by norm_num [md5Init]⟩

lemma packState_lt {st : MD5State} (h : StateBounded st) :
    packState st < 4294967296 ^ 4 := by
  obtain ⟨ha, hb, hc, hd⟩ := h
  unfold packState
  have hM : (4294967296 : ℕ) ^ 4 = 340282366920938463463374607431768211456 := by
    norm_num
  rw [hM]
  omega

lemma packState_inj {s t : MD5State} (hs : StateBounded s) (ht : StateBounded t)
    (h : packState s = packState t) : s = t := by
  obtain ⟨ha, hb, hc, hd⟩ := hs
  obtain ⟨ha', hb', hc', hd'⟩ := ht
  obtain ⟨a, b, c, d⟩ := s
  obtain ⟨a', b', c', d'⟩ := t
  unfold packState at h
  simp only at *
  have : a = a' ∧ b = b' ∧ c = c' ∧ d = d' := by omega
  simp [this.1, this.2.1, this.2.2.1, this.2.2.2]

/-- C6 (counterexample): the derived id is the hash digest truncated to 12
hex characters, i.e. a function into a finite range, while the inputs that
agree on four fields and differ in the description alone are infinitely
many — so two such inputs share an id: "any single differing field changes
the derived id" is false. -/
theorem generate_id_collision_exists :
    ∃ u1 u2 : IdInput,
      u1.transaction_date = u2.transaction_date ∧ u1.amount = u2.amount ∧
      u1.sender_phone = u2.sender_phone ∧ u1.receiver_phone = u2.receiver_phone ∧
      u1.description ≠ u2.description ∧
      generate_transaction_id u1 = generate_transaction_id u2 := by
  obtain ⟨n, m, hnm, heq⟩ := Finite.exists_ne_map_eq_of_infinite
    (fun n : ℕ => (⟨packState (md5Core (strBytes (dataString (collisionInput n)))),
      packState_lt (md5Core_bounded _)⟩ : Fin (4294967296 ^ 4)))
  have hstate : md5Core (strBytes (dataString (collisionInput n))) =
      md5Core (strBytes (dataString (collisionInput m))) :=
    packState_inj (md5Core_bounded _) (md5Core_bounded _) (congrArg Fin.val heq)
  refine ⟨collisionInput n, collisionInput m, rfl, rfl, rfl, rfl, ?_, ?_⟩
  · intro hcon
    apply hnm
    have hlen := congrArg (fun s : String => s.data.length) hcon
    simpa [collisionInput] using hlen
  · unfold generate_transaction_id
    rw [hstate]

/-! ## Fidelity anchors

Concrete evaluations of the embedding on the repository's own unit-test
inputs (`tests/test_parse_xml.py`, `tests/test_clean_normalize.py`,
`tests/test_categorize.py`), checking the model against the behaviour the
test-suite exercises. -/

theorem anchor_pyInt_epoch : pyInt "1634567890000" = some 1634567890000 := by decide

theorem anchor_extract_empty_attributes :
    extract_transaction_data ⟨none, none, none⟩ = some ⟨"", .current, "", .current⟩ := by
  decide

theorem anchor_phone_formats :
    normalize_phone_number (some "+256-772-123-456") = "+256772123456" ∧
    normalize_phone_number (some "0772 123 456") = "+256772123456" ∧
    normalize_phone_number (some "abc") = "" := by decide

theorem anchor_networks :
    identify_network "+256772123456" = "MTN" ∧
    identify_network "+256752123456" = "AIRTEL" ∧
    identify_network "+256792123456" = "AFRICELL" ∧
    identify_network "+256712123456" = "UNKNOWN" ∧
    identify_network "" = "UNKNOWN" := by decide

theorem anchor_amounts :
    normalize_amount (.str "UGX 50,000") = 50000 ∧
    normalize_amount (.str "invalid") = 0 ∧
    normalize_amount .pynone = 0 ∧
    normalize_amount (.str "") = 0 := by decide

theorem anchor_clean_text :
    clean_text (some "  This   is   a   test  ") = "This is a test" ∧
    clean_text (some "Text with @special #characters!") = "Text with special characters" ∧
    clean_text none = "" := by decide

theorem anchor_category_rules :
    categorize_by_description (some "Money transfer to John") = "TRANSFER" ∧
    categorize_by_description (some "Random text") = "" ∧
    categorize_by_body (some "You have sent UGX 50,000 to John Doe") = "TRANSFER" ∧
    categorize_by_body (some "Cash out of UGX 100,000") = "WITHDRAWAL" := by decide

theorem anchor_balance_inference :
    infer_transaction_type ⟨none, none, none, some 50000, some 75000, none⟩ "OTHER" =
      .ok "CREDIT" ∧
    infer_transaction_type ⟨none, some (some "You have sent money to John"),
      none, none, none, none⟩ "OTHER" = .ok "DEBIT" := by decide

theorem anchor_time_buckets :
    categorize_by_time (some "2023-10-15T08:30:00") = "MORNING" ∧
    categorize_by_time (some "2023-10-15T14:30:00") = "AFTERNOON" ∧
    categorize_by_time (some "2023-10-15T19:30:00") = "EVENING" ∧
    categorize_by_time (some "2023-10-15T23:30:00") = "NIGHT" ∧
    categorize_by_time (some "invalid_date") = "UNKNOWN" := by decide

theorem anchor_categorize_complete :
    categorize_transaction
      ⟨some (some "Transfer to John"), some (some "You have sent UGX 50,000 to John Doe"),
       some 50000, none, none, some (some "2023-10-15T14:30:00")⟩
      = .ok ⟨"TRANSFER", "DEBIT", "MEDIUM", "AFTERNOON"⟩ := by decide

end MomoEtl

